import Mathlib

/-!
Verification of the `oksana` camera-streaming service.

The development shallowly embeds the two source files:

* `camera_manager.py` — the `CameraManager` class: lifecycle (`start`,
  `stop`, `_capture_loop`, `_open_camera`), the guarded shared state
  (`cap`, `running`, `last_frame`), and the property setters
  (`set_white_balance_temperature`, `set_exposure`, `set_gain`,
  `set_focus`, `set_zoom`, `get_props`), guarded by `_ensure_open`.
* `main.py` — the websocket control dispatcher (`ws_control`) and the
  MJPEG streaming endpoint (`mjpeg`, `mjpeg_generator`).

Device values are modelled as exact rationals (`Rat`); the OpenCV driver
is an abstract parameter (`Driver`) supplying the effect of `cap.set` and
`cap.get`; frames and pixel buffers are wholly abstract.
-/

/-! ## OpenCV numeric constants used by the source -/

/-- The `cv2.CAP_PROP_FRAME_WIDTH` -/
def CAP_PROP_FRAME_WIDTH : Nat := 3

/-- The `cv2.CAP_PROP_FRAME_HEIGHT` -/
def CAP_PROP_FRAME_HEIGHT : Nat := 4

/-- The `cv2.CAP_PROP_FOURCC` -/
def CAP_PROP_FOURCC : Nat := 6

/-- The `cv2.CAP_PROP_GAIN` -/
def CAP_PROP_GAIN : Nat := 14

/-- The `cv2.CAP_PROP_EXPOSURE` -/
def CAP_PROP_EXPOSURE : Nat := 15

/-- The `cv2.CAP_PROP_AUTO_EXPOSURE` -/
def CAP_PROP_AUTO_EXPOSURE : Nat := 21

/-- The literal property id `23` used by `set_white_balance_temperature`
and `get_props` (`cv2.CAP_PROP_TEMPERATURE`). -/
def CAP_PROP_TEMPERATURE : Nat := 23

/-- The `cv2.CAP_PROP_ZOOM` -/
def CAP_PROP_ZOOM : Nat := 27

/-- The `cv2.CAP_PROP_FOCUS` -/
def CAP_PROP_FOCUS : Nat := 28

/-- The `cv2.CAP_PROP_AUTOFOCUS` -/
def CAP_PROP_AUTOFOCUS : Nat := 39

/-- The `cv2.CAP_PROP_AUTO_WB` -/
def CAP_PROP_AUTO_WB : Nat := 44

/-- The `cv2.IMWRITE_JPEG_QUALITY` -/
def IMWRITE_JPEG_QUALITY : Nat := 1

/-! ## Device model

The device's property store is an association list from property id to
value; how a `cap.set` call changes it (the driver may reject, clamp or
quantise) and what `cap.get` reads back are abstract driver behaviour. -/

/-- The device's property store (association list: property id ↦ value). -/
abbrev DevProps := List (Nat × Rat)

/-- Frames are abstract; only identity matters to the embedded code. -/
abbrev Frame := Nat

/-- Abstract OpenCV driver behaviour: `doSet` is the effect of
`cap.set id v` (returns the success flag and the new device state),
`doGet` is `cap.get id`. -/
structure Driver where
  doSet : DevProps → Nat → Rat → Bool × DevProps
  doGet : DevProps → Nat → Rat

/-- The dict returned by every property setter in `camera_manager.py`:
`{"ok": ..., "requested": ..., "applied": ...}`. -/
structure PropResult where
  ok : Bool
  requested : Rat
  applied : Rat
deriving DecidableEq, Repr

/-- The `RuntimeError("Camera is not started/opened")` raised by
`CameraManager._ensure_open`. -/
inductive CamError
  | notOpen
deriving DecidableEq, Repr

/-- The `CameraManager` shared fields relevant to the property API and
the dispatcher: `self.cap`, `self.running`, `self.last_frame`.
`cap = none` models `self.cap is None` (a held handle is open: the code
only stores handles that passed the `isOpened` check and nulls the field
when releasing). -/
structure Cam where
  cap : Option DevProps
  running : Bool
  lastFrame : Option Frame
deriving DecidableEq, Repr

/-- The `CameraManager._ensure_open`: raise unless a capture handle is held. -/
def ensure_open (c : Cam) : Except CamError Unit :=
  match c.cap with
  | none => Except.error CamError.notOpen
  | some _ => Except.ok ()

/-- Common body of the five property setters: `_ensure_open`, then under
the lock `ok = cap.set(pid, float(value))`, `readback = cap.get(pid)`,
returning `{"ok": ok, "requested": value, "applied": readback}` together
with the updated camera. -/
def setProp (dr : Driver) (pid : Nat) (v : Rat) (c : Cam) :
    Except CamError (PropResult × Cam) :=
  match c.cap with
  | none => Except.error CamError.notOpen
  | some p =>
    let r := dr.doSet p pid v
    let readback := dr.doGet r.2 pid
    Except.ok ({ ok := r.1, requested := v, applied := readback },
               { c with cap := some r.2 })

/-- The `CameraManager.set_white_balance_temperature` (property id 23). -/
def set_white_balance_temperature (dr : Driver) (v : Rat) (c : Cam) :
    Except CamError (PropResult × Cam) :=
  setProp dr CAP_PROP_TEMPERATURE v c

/-- The `CameraManager.set_exposure`. -/
def set_exposure (dr : Driver) (v : Rat) (c : Cam) :
    Except CamError (PropResult × Cam) :=
  setProp dr CAP_PROP_EXPOSURE v c

/-- The `CameraManager.set_gain`. -/
def set_gain (dr : Driver) (v : Rat) (c : Cam) :
    Except CamError (PropResult × Cam) :=
  setProp dr CAP_PROP_GAIN v c

/-- The `CameraManager.set_focus`. -/
def set_focus (dr : Driver) (v : Rat) (c : Cam) :
    Except CamError (PropResult × Cam) :=
  setProp dr CAP_PROP_FOCUS v c

/-- The `CameraManager.set_zoom`. -/
def set_zoom (dr : Driver) (v : Rat) (c : Cam) :
    Except CamError (PropResult × Cam) :=
  setProp dr CAP_PROP_ZOOM v c

/-- The `CameraManager.get_props`: `_ensure_open`, then the snapshot dict of
the ten tracked properties, in source order. -/
def get_props (dr : Driver) (c : Cam) :
    Except CamError (List (String × Rat)) :=
  match c.cap with
  | none => Except.error CamError.notOpen
  | some p =>
    Except.ok
      [ ("white_balance_auto", dr.doGet p CAP_PROP_AUTO_WB),
        ("white_balance", dr.doGet p CAP_PROP_TEMPERATURE),
        ("auto_exposure", dr.doGet p CAP_PROP_AUTO_EXPOSURE),
        ("exposure", dr.doGet p CAP_PROP_EXPOSURE),
        ("gain", dr.doGet p CAP_PROP_GAIN),
        ("autofocus", dr.doGet p CAP_PROP_AUTOFOCUS),
        ("focus", dr.doGet p CAP_PROP_FOCUS),
        ("zoom", dr.doGet p CAP_PROP_ZOOM),
        ("width", dr.doGet p CAP_PROP_FRAME_WIDTH),
        ("height", dr.doGet p CAP_PROP_FRAME_HEIGHT) ]

/-! ## Lifecycle model (C5)

`start` / `stop` as they act on the `running` flag and on thread
creation, applied one command at a time (the message dispatcher serves
one control message at a time). -/

/-- The lifecycle-relevant state: the `running` flag and how many
producer threads have been launched. -/
structure LifeState where
  running : Bool
  threads : Nat
deriving DecidableEq, Repr

/-- A lifecycle control message. -/
inductive LifeCmd
  | start
  | stopCmd
deriving DecidableEq, Repr

/-- The `CameraManager.start`: under the lock, return if already running,
else set `running = True`; then launch the capture thread. -/
def lifeStart (s : LifeState) : LifeState :=
  if s.running then s
  else { running := true, threads := s.threads + 1 }

/-- The `CameraManager.stop` as it acts on the flag: under the lock set
`running = False` (the join and handle cleanup do not touch the flag or
launch threads). -/
def lifeStop (s : LifeState) : LifeState :=
  { s with running := false }

/-- Apply one lifecycle command. -/
def lifeApply (s : LifeState) : LifeCmd → LifeState
  | LifeCmd.start => lifeStart s
  | LifeCmd.stopCmd => lifeStop s

/-- Apply a sequence of lifecycle commands in order. -/
def lifeRun (cmds : List LifeCmd) (s : LifeState) : LifeState :=
  cmds.foldl lifeApply s

/-! ## The concurrent capture loop (C1, C8)

An interleaving small-step system for one `CameraManager`: the producer
thread (`_capture_loop`) has a program counter, the controlling thread
runs `start` and the two lock-held blocks of `stop`.  Each step is one
lock-held critical section of the source (or one unlocked device call).
The model assumes a new capture thread is only launched once the
previous one has exited (`pc` is `notStarted` or `done`). -/

/-- Program counter of `_capture_loop`. -/
inductive PC
  | notStarted
  | opening
  | loopCheck
  | checkRef (r : Option DevProps)
  | reading (r : DevProps)
  | publish (f : Frame)
  | cleanup
  | done
deriving DecidableEq, Repr

/-- Controlling-thread state: `stopping` between the two lock-held
blocks of `stop()`. -/
inductive MainS
  | idle
  | stopping
deriving DecidableEq, Repr

/-- Whole-system state. -/
structure Sys where
  pc : PC
  mainS : MainS
  cap : Option DevProps
  running : Bool
  lastFrame : Option Frame
deriving DecidableEq, Repr

/-- Initial state: fresh `CameraManager.__init__`. -/
def initSys : Sys :=
  { pc := PC.notStarted, mainS := MainS.idle,
    cap := none, running := false, lastFrame := none }

/-- First lock-held block of `stop()`: `self.running = False`. -/
def stopFlagStep (s : Sys) : Sys :=
  { s with running := false, mainS := MainS.stopping }

/-- Second lock-held block of `stop()` (after the bounded join):
release the handle, `self.cap = None`, `self.last_frame = None`. -/
def stopCleanupStep (s : Sys) : Sys :=
  { s with cap := none, lastFrame := none, mainS := MainS.idle }

/-- The `_capture_loop`'s failed-open handler: under the lock set
`running = False`, `cap = None`, `last_frame = None`, then return. -/
def openFailTarget (s : Sys) : Sys :=
  { s with running := false, cap := none, lastFrame := none,
           pc := PC.done }

/-- The `_capture_loop`'s exit block: release, `cap = None`,
`last_frame = None`. -/
def cleanupTarget (s : Sys) : Sys :=
  { s with cap := none, lastFrame := none, pc := PC.done }

/-- One interleaved step of the system. -/
inductive Step : Sys → Sys → Prop
  /-- The `start()`: the `running` check and flag-set under the lock, plus
  the thread launch (modelled only when no capture thread is alive). -/
  | startStep (s : Sys) :
      s.mainS = MainS.idle → s.running = false →
      (s.pc = PC.notStarted ∨ s.pc = PC.done) →
      Step s { s with running := true, pc := PC.opening }
  /-- The `_open_camera()` succeeds with device state `d`; the handle is
  stored under the lock. -/
  | openOk (s : Sys) (d : DevProps) :
      s.pc = PC.opening →
      Step s { s with cap := some d, pc := PC.loopCheck }
  /-- The `_open_camera()` raises: the except-block clears everything. -/
  | openFail (s : Sys) :
      s.pc = PC.opening →
      Step s (openFailTarget s)
  /-- Loop head, `running` true: read `cap_ref = self.cap` under the
  lock. -/
  | loopTrue (s : Sys) :
      s.pc = PC.loopCheck → s.running = true →
      Step s { s with pc := PC.checkRef s.cap }
  /-- Loop head, `running` false: break to the exit block. -/
  | loopFalse (s : Sys) :
      s.pc = PC.loopCheck → s.running = false →
      Step s { s with pc := PC.cleanup }
  /-- The `cap_ref is None`: break to the exit block. -/
  | refNone (s : Sys) :
      s.pc = PC.checkRef none →
      Step s { s with pc := PC.cleanup }
  /-- The `cap_ref` present: proceed to the blocking read. -/
  | refSome (s : Sys) (d : DevProps) :
      s.pc = PC.checkRef (some d) →
      Step s { s with pc := PC.reading d }
  /-- The `cap_ref.read()` returns a frame. -/
  | readOk (s : Sys) (d : DevProps) (f : Frame) :
      s.pc = PC.reading d →
      Step s { s with pc := PC.publish f }
  /-- The `cap_ref.read()` fails: sleep and retry. -/
  | readFail (s : Sys) (d : DevProps) :
      s.pc = PC.reading d →
      Step s { s with pc := PC.loopCheck }
  /-- Publish the frame under the lock: `self.last_frame = frame`. -/
  | publishStep (s : Sys) (f : Frame) :
      s.pc = PC.publish f →
      Step s { s with lastFrame := some f, pc := PC.loopCheck }
  /-- The loop's exit block. -/
  | cleanupStep (s : Sys) :
      s.pc = PC.cleanup →
      Step s (cleanupTarget s)
  /-- The `stop()`, first lock-held block. -/
  | stopFlag (s : Sys) :
      s.mainS = MainS.idle →
      Step s (stopFlagStep s)
  /-- The `stop()`, second lock-held block (the join may have timed out, so
  the producer may still be anywhere). -/
  | stopCleanup (s : Sys) :
      s.mainS = MainS.stopping →
      Step s (stopCleanupStep s)

/-- Reachability from the freshly constructed manager. -/
def Reachable (s : Sys) : Prop :=
  Relation.ReflTransGen Step initSys s

/-! ## `_open_camera` (C9) -/

/-- The constructor arguments of `CameraManager` that `_open_camera`
reads. -/
structure Config where
  device_index : Nat
  width : Nat
  height : Nat
  fourcc : String
deriving DecidableEq, Repr

/-- The `RuntimeError("Cannot open camera ...")` of `_open_camera`. -/
inductive OpenError
  | cannotOpen
deriving DecidableEq, Repr

/-- The `cv2.VideoWriter_fourcc(*s)`: pack the characters little-endian,
8 bits each (defined for the 4-character tags the source passes). -/
def VideoWriter_fourcc (s : String) : Nat :=
  (s.data.enum.map (fun ci => ci.2.toNat * 256 ^ ci.1)).sum

/-- The `CameraManager._open_camera`, abstracted over whether the device
opens (`devOpens` models `cap.isOpened()` after `VideoCapture`).
Returns the ordered list of `cap.set` calls performed: the fourcc write
happens only under `if self.fourcc:` (non-empty string), then width,
height, auto-exposure `1`, auto-white-balance `0`, autofocus `0`. -/
def open_camera (cfg : Config) (devOpens : Bool) :
    Except OpenError (List (Nat × Rat)) :=
  if devOpens = false then Except.error OpenError.cannotOpen
  else
    Except.ok
      ((if cfg.fourcc ≠ "" then
          [(CAP_PROP_FOURCC, (VideoWriter_fourcc cfg.fourcc : Rat))]
        else []) ++
       [ (CAP_PROP_FRAME_WIDTH, (cfg.width : Rat)),
         (CAP_PROP_FRAME_HEIGHT, (cfg.height : Rat)),
         (CAP_PROP_AUTO_EXPOSURE, 1),
         (CAP_PROP_AUTO_WB, 0),
         (CAP_PROP_AUTOFOCUS, 0) ])

/-! ## The websocket control dispatcher (C4, C8, C10)

`ws_control` in `main.py`.  An incoming text either fails `json.loads`
(`notJson`), parses to a non-dict (`nonObject`: `msg.get` then raises
`AttributeError` outside every handler), or parses to a dict from which
the code reads `type` and `value`.  `msg.get` returns `None` both for an
absent key and for a JSON `null` value, so optional fields are
`Option JVal` with `none` covering both. -/

/-- A JSON value as Python sees it after `json.loads` (inside a dict). -/
inductive JVal
  | jnum (x : Rat)
  | jbool (b : Bool)
  | jstr (s : String)
  | jarr
  | jobj
deriving DecidableEq, Repr

/-- Numeric value of a digit list (most significant first). -/
def natOfDigits (l : List Char) : Nat :=
  l.foldl (fun n c => 10 * n + (c.toNat - 48)) 0

/-- A Python float as this embedding represents it: finite values are
taken exactly (rationals, before IEEE-754 rounding — the same
exact-value abstraction the device model uses), plus the three
non-finite values `float(str)` can produce. -/
inductive PyFloat
  | fin (q : Rat)
  | inf
  | neginf
  | nan
deriving DecidableEq, Repr

/-- Whether a Python float is finite. -/
def PyFloat.isFin : PyFloat → Bool
  | PyFloat.fin _ => true
  | PyFloat.inf => false
  | PyFloat.neginf => false
  | PyFloat.nan => false

/-- Python `str.strip()` on a character list (structural, so concrete
instances evaluate). -/
def pyStrip (l : List Char) : List Char :=
  ((l.dropWhile Char.isWhitespace).reverse.dropWhile Char.isWhitespace).reverse

/-- After one leading digit: consume the `(["_"] digit)*` tail of
CPython's `digitpart` (PEP 515: single underscores, only between
digits), returning the digits consumed (underscores dropped) and the
unconsumed rest. -/
def digitPartAux : List Char → List Char × List Char
  | '_' :: c :: rest =>
    if c.isDigit then
      let r := digitPartAux rest
      (c :: r.1, r.2)
    else ([], '_' :: c :: rest)
  | c :: rest =>
    if c.isDigit then
      let r := digitPartAux rest
      (c :: r.1, r.2)
    else ([], c :: rest)
  | [] => ([], [])

/-- CPython `digitpart ::= digit (["_"] digit)*`: the digit characters
(underscores dropped) and the unconsumed rest, or `none` when no digit
starts here. -/
def digitPart (l : List Char) : Option (List Char × List Char) :=
  match l with
  | c :: rest =>
    if c.isDigit then
      let r := digitPartAux rest
      some (c :: r.1, r.2)
    else none
  | [] => none

/-- CPython `number ::= [digitpart] "." [digitpart] | digitpart` with
at least one digit overall: integer digits, fraction digits and the
unconsumed rest. -/
def parseNumber (l : List Char) :
    Option (List Char × List Char × List Char) :=
  match digitPart l with
  | some (ip, rest) =>
    match rest with
    | '.' :: rest2 =>
      match digitPart rest2 with
      | some (fp, rest3) => some (ip, fp, rest3)
      | none => some (ip, [], rest2)
    | _ => some (ip, [], rest)
  | none =>
    match l with
    | '.' :: rest2 =>
      match digitPart rest2 with
      | some (fp, rest3) => some ([], fp, rest3)
      | none => none
    | _ => none

/-- CPython `exponent ::= ("e" | "E") [sign] digitpart`: the signed
exponent and the unconsumed rest. -/
def parseExponent (l : List Char) : Option (Int × List Char) :=
  match l with
  | c :: rest =>
    if c = 'e' ∨ c = 'E' then
      match rest with
      | '+' :: rest2 =>
        match digitPart rest2 with
        | some (ds, rest3) => some ((natOfDigits ds : Int), rest3)
        | none => none
      | '-' :: rest2 =>
        match digitPart rest2 with
        | some (ds, rest3) => some (-(natOfDigits ds : Int), rest3)
        | none => none
      | _ =>
        match digitPart rest with
        | some (ds, rest3) => some ((natOfDigits ds : Int), rest3)
        | none => none
    else none
  | [] => none

/-- Lower-case an ASCII letter. -/
def lowerAscii (c : Char) : Char :=
  if 'A' ≤ c ∧ c ≤ 'Z' then Char.ofNat (c.toNat + 32) else c

/-- Exact rational value of `intpart.fracpart * 10 ^ e` (branching only
so that concrete instances evaluate without redundant arithmetic). -/
def ratOfParts (ip fp : List Char) (e : Int) : Rat :=
  let base : Rat :=
    if fp.isEmpty then (natOfDigits ip : Rat)
    else (natOfDigits ip : Rat) + (natOfDigits fp : Rat) / (10 : Rat) ^ fp.length
  if e = 0 then base else base * (10 : Rat) ^ e

/-- CPython `floatnumber | infinity | nan` after the optional sign:
`infinity ::= "inf" | "Infinity"` and `nan ::= "nan"`
(case-insensitive), `floatnumber ::= number [exponent]`, consuming the
whole input. -/
def parseUnsignedFloat (l : List Char) (neg : Bool) : Option PyFloat :=
  let low := l.map lowerAscii
  if low = "inf".data ∨ low = "infinity".data then
    some (if neg then PyFloat.neginf else PyFloat.inf)
  else if low = "nan".data then some PyFloat.nan
  else
    match parseNumber l with
    | none => none
    | some (ip, fp, rest) =>
      match rest with
      | [] =>
        some (PyFloat.fin
          (if neg then -(ratOfParts ip fp 0) else ratOfParts ip fp 0))
      | _ =>
        match parseExponent rest with
        | some (e, []) =>
          some (PyFloat.fin
            (if neg then -(ratOfParts ip fp e) else ratOfParts ip fp e))
        | _ => none

/-- CPython `float(str)`: `floatvalue ::= [sign] (floatnumber |
infinity | nan)` with PEP 515 underscores and surrounding whitespace
stripped (ASCII fragment; Unicode digits and spaces out of scope).
`none` models the `ValueError` the interpreter raises; finite values
are exact rationals. -/
def pyFloatOfString (s : String) : Option PyFloat :=
  match pyStrip s.data with
  | '-' :: rest => parseUnsignedFloat rest true
  | '+' :: rest => parseUnsignedFloat rest false
  | t => parseUnsignedFloat t false

/-- Python `float(value)` on a JSON-decoded value: numbers pass
through, booleans coerce (`bool` is an `int` subclass), strings parse
per the `float(str)` grammar, anything else raises `TypeError`
(`none`). -/
def pyFloat : JVal → Option PyFloat
  | JVal.jnum x => some (PyFloat.fin x)
  | JVal.jbool b => some (PyFloat.fin (if b then 1 else 0))
  | JVal.jstr s => pyFloatOfString s
  | JVal.jarr => none
  | JVal.jobj => none

/-- The `str(e)` of the error `float(value)` raises: the `ValueError`
quotes the offending string (its `repr`; escaping inside the quotes is
not modelled), the `TypeError` names the argument's type. -/
def floatConvDetail : JVal → String
  | JVal.jstr s => "could not convert string to float: '" ++ s ++ "'"
  | JVal.jarr =>
    "float() argument must be a string or a real number, not 'list'"
  | JVal.jobj =>
    "float() argument must be a string or a real number, not 'dict'"
  | _ => "float() argument must be a string or a real number"

/-- Outcome of `json.loads` on the received text, as the dispatcher
distinguishes it. -/
inductive Parsed
  | notJson
  | nonObject
  | object (msgType : Option JVal) (value : Option JVal)
deriving DecidableEq, Repr

/-- A response sent with `ws.send_json`. -/
inductive Response
  | ackStart
  | ackStop
  | ackSet (action : String) (result : PropResult)
  | ackSetSpecial (action : String) (value : PyFloat)
  | errInvalidJson (raw : String)
  | errMissingValue (forName : String)
  | errUnknownType (msgType : Option JVal)
  | errException (msgType : Option JVal) (detail : String)
deriving DecidableEq, Repr

/-- The `type` field of a response. -/
def Response.rtype : Response → String
  | Response.ackStart => "ack"
  | Response.ackStop => "ack"
  | Response.ackSet _ _ => "ack"
  | Response.ackSetSpecial _ _ => "ack"
  | Response.errInvalidJson _ => "error"
  | Response.errMissingValue _ => "error"
  | Response.errUnknownType _ => "error"
  | Response.errException _ _ => "error"

/-- Outcome of handling one received text: either exactly one response
is sent (with the new camera state and the list of
`camera.set_*(float(value))` invocations made), or an exception escapes
the message loop (`crash`) — no response, the connection dies. -/
inductive StepOut
  | reply (r : Response) (cam : Cam) (calls : List (String × Rat))
  | crash (cam : Cam)
deriving DecidableEq, Repr

/-- The `camera.start()` as the dispatcher observes it: sets the flag (the
capture thread then runs asynchronously). -/
def camStartSeq (c : Cam) : Cam :=
  { c with running := true }

/-- The `camera.stop()` as the dispatcher observes it: flag cleared, handle
released, frame cleared. -/
def camStopSeq (_c : Cam) : Cam :=
  { cap := none, running := false, lastFrame := none }

/-- The `set_*` call when `float(value)` is non-finite (`inf`, `-inf`
or `nan`): the setter is invoked with it — `_ensure_open` still gates
the call — but the write, readback and ack payload then carry
non-finite floats, which the exact-rational device model does not
represent; the embedding records the branch through `ackSetSpecial`
and leaves the modelled property store untouched. -/
def handleSetNonFinite (name : String) (pf : PyFloat) (c : Cam) : StepOut :=
  match ensure_open c with
  | Except.error CamError.notOpen =>
    StepOut.reply
      (Response.errException (some (JVal.jstr name))
        "Camera is not started/opened") c []
  | Except.ok _ => StepOut.reply (Response.ackSetSpecial name pf) c []

/-- One `set_*` branch of `ws_control`: `value = msg.get("value")`;
absent (or JSON null) ⇒ `missing_value` and no camera call; otherwise
`camera.set_*(float(value))` inside the `try`, where `float` may raise
(conversion failure) and the setter may raise `_ensure_open`'s
`RuntimeError`; both land in the `except` branch. -/
def handleSet (name : String)
    (setter : Rat → Cam → Except CamError (PropResult × Cam))
    (v : Option JVal) (c : Cam) : StepOut :=
  match v with
  | none => StepOut.reply (Response.errMissingValue name) c []
  | some jv =>
    match pyFloat jv with
    | none =>
      StepOut.reply
        (Response.errException (some (JVal.jstr name)) (floatConvDetail jv)) c []
    | some (PyFloat.fin q) =>
      match setter q c with
      | Except.error CamError.notOpen =>
        StepOut.reply
          (Response.errException (some (JVal.jstr name))
            "Camera is not started/opened") c [(name, q)]
      | Except.ok rc =>
        StepOut.reply (Response.ackSet name rc.1) rc.2 [(name, q)]
    | some PyFloat.inf => handleSetNonFinite name PyFloat.inf c
    | some PyFloat.neginf => handleSetNonFinite name PyFloat.neginf c
    | some PyFloat.nan => handleSetNonFinite name PyFloat.nan c

/-- The body of `ws_control`'s receive loop for one text message:
`json.loads`, then `msg.get("type")` (which raises uncaught on a
non-dict), then the `if`-chain inside the `try`. -/
def wsHandleText (dr : Driver) (raw : String) (p : Parsed) (c : Cam) :
    StepOut :=
  match p with
  | Parsed.notJson => StepOut.reply (Response.errInvalidJson raw) c []
  | Parsed.nonObject => StepOut.crash c
  | Parsed.object mt v =>
    if mt = some (JVal.jstr "camera_start") then
      StepOut.reply Response.ackStart (camStartSeq c) []
    else if mt = some (JVal.jstr "camera_stop") then
      StepOut.reply Response.ackStop (camStopSeq c) []
    else if mt = some (JVal.jstr "set_white_balance_temperature") then
      handleSet "set_white_balance_temperature"
        (set_white_balance_temperature dr) v c
    else if mt = some (JVal.jstr "set_exposure") then
      handleSet "set_exposure" (set_exposure dr) v c
    else if mt = some (JVal.jstr "set_gain") then
      handleSet "set_gain" (set_gain dr) v c
    else if mt = some (JVal.jstr "set_focus") then
      handleSet "set_focus" (set_focus dr) v c
    else if mt = some (JVal.jstr "set_zoom") then
      handleSet "set_zoom" (set_zoom dr) v c
    else
      StepOut.reply (Response.errUnknownType mt) c []

/-- The whole connection: handle each received text in order; an
escaping exception ends the loop with no further responses; in every
exit path the `finally` block runs `camera.stop()`. -/
def runConn (dr : Driver) :
    List (String × Parsed) → Cam → List Response × Cam
  | [], c => ([], camStopSeq c)
  | m :: rest, c =>
    match wsHandleText dr m.1 m.2 c with
    | StepOut.crash c2 => ([], camStopSeq c2)
    | StepOut.reply r c2 _ =>
      let t := runConn dr rest c2
      (r :: t.1, t.2)

/-- The five `set_*` message types, in dispatch order. -/
def setterNames : List String :=
  [ "set_white_balance_temperature", "set_exposure", "set_gain",
    "set_focus", "set_zoom" ]

/-- Every `type` value the dispatcher recognises. -/
def recognizedTypes : List (Option JVal) :=
  (some (JVal.jstr "camera_start")) :: (some (JVal.jstr "camera_stop")) ::
    setterNames.map (fun n => some (JVal.jstr n))

/-! ## The MJPEG stream (C6, C7)

`mjpeg` / `mjpeg_generator` in `main.py`.  The generator's interaction
with the shared slot is a sequence of lock-held observations of
`(running, last_frame)`; the JPEG encoder (`cv2.imencode`) is an
abstract parameter taking the frame and the encode-parameter list and
returning the encoded bytes or `none` (the `ok` flag false). -/

/-- One lock-held observation of `(camera.running, camera.last_frame)`. -/
structure Obs where
  running : Bool
  frame : Option Frame
deriving DecidableEq, Repr

/-- UTF-8/ASCII bytes of a header string. -/
def asciiBytes (s : String) : List Nat :=
  s.data.map Char.toNat

/-- The `b"--frame\r\n"`. -/
def boundaryChunk : List Nat :=
  asciiBytes "--frame\r\n"

/-- The `b"Content-Type: image/jpeg\r\n"`. -/
def contentTypeChunk : List Nat :=
  asciiBytes "Content-Type: image/jpeg\r\n"

/-- The encoded `Content-Length` header for a payload of `n` bytes,
with the blank line that ends the part headers. -/
def contentLengthChunk (n : Nat) : List Nat :=
  asciiBytes ("Content-Length: " ++ toString n ++ "\r\n\r\n")

/-- The `b"\r\n"`, the separator after the payload. -/
def crlfChunk : List Nat :=
  asciiBytes "\r\n"

/-- The `mjpeg_generator`, its unbounded `while True` truncated to a finite
observation sequence: stop yielding at the first observation with
`running` false; skip (sleep) on a missing frame; skip on a failed
encode; otherwise yield the five chunks of one multipart part.  The
encoder is called exactly as in the source:
`imencode(".jpg", frame, [IMWRITE_JPEG_QUALITY, 100])`. -/
def mjpegGen (enc : Frame → List Nat → Option (List Nat)) :
    List Obs → List (List Nat)
  | [] => []
  | o :: rest =>
    if o.running = false then []
    else
      match o.frame with
      | none => mjpegGen enc rest
      | some f =>
        match enc f [IMWRITE_JPEG_QUALITY, 100] with
        | none => mjpegGen enc rest
        | some jpg =>
          boundaryChunk :: contentTypeChunk ::
            contentLengthChunk jpg.length :: jpg :: crlfChunk ::
            mjpegGen enc rest

/-- An HTTP error response (`fastapi.HTTPException`). -/
structure HttpErr where
  status : Nat
  detail : String
deriving DecidableEq, Repr

/-- The 503 raised by the `mjpeg` route. -/
def httpErr503 : HttpErr :=
  { status := 503,
    detail := "Camera is not started. Use WS camera_start first." }

/-- The `mjpeg` route: read `running` under the lock; if false raise
503 with no body, else stream the generator. -/
def mjpeg_endpoint (enc : Frame → List Nat → Option (List Nat))
    (c : Cam) (obs : List Obs) : Except HttpErr (List (List Nat)) :=
  if c.running = false then Except.error httpErr503
  else Except.ok (mjpegGen enc obs)

/-! ## Concrete instances used by witnesses and counterexamples -/

/-- A simple well-behaved driver: writes are stored and accepted,
reads return the stored value (0 when never written). -/
def drv0 : Driver where
  doSet p pid v := (true, (pid, v) :: p.filter (fun q => q.1 ≠ pid))
  doGet p pid := ((p.lookup pid).getD 0)

/-- A closed camera. -/
def cam0 : Cam :=
  { cap := none, running := false, lastFrame := none }

/-- Device state with exposure 3. -/
def props1 : DevProps :=
  [(CAP_PROP_EXPOSURE, 3)]

/-- An open, running camera. -/
def cam1 : Cam :=
  { cap := some props1, running := true, lastFrame := some 0 }

/-- An encoder that always succeeds with a fixed 2-byte payload. -/
def enc0 (_f : Frame) (_params : List Nat) : Option (List Nat) :=
  some [65, 66]

/-- A system state whose producer is about to run `_open_camera`. -/
def sysOpening : Sys :=
  { pc := PC.opening, mainS := MainS.idle,
    cap := none, running := true, lastFrame := none }

/-- The reachable state exhibited against C1: the producer has
published a frame and `stop()` has executed its first lock-held block
but not yet its cleanup block. -/
def sysBad : Sys :=
  { pc := PC.loopCheck, mainS := MainS.stopping,
    cap := some [], running := false, lastFrame := some 0 }

/-! ## Helper lemmas -/

/-- The `setProp` on an open camera: the write-then-readback result. -/
theorem setProp_open (dr : Driver) (pid : Nat) (v : Rat) (c : Cam)
    (p : DevProps) (h : c.cap = some p) :
    setProp dr pid v c =
      Except.ok
        ({ ok := (dr.doSet p pid v).1, requested := v,
           applied := dr.doGet (dr.doSet p pid v).2 pid },
         { c with cap := some (dr.doSet p pid v).2 }) := by
  unfold setProp
  rw [h]

/-- The `setProp` on a closed camera: the `_ensure_open` error. -/
theorem setProp_closed (dr : Driver) (pid : Nat) (v : Rat) (c : Cam)
    (h : c.cap = none) :
    setProp dr pid v c = Except.error CamError.notOpen := by
  unfold setProp
  rw [h]

/-- The `get_props` on an open camera returns the snapshot. -/
theorem get_props_open (dr : Driver) (c : Cam) (p : DevProps)
    (h : c.cap = some p) :
    get_props dr c =
      Except.ok
        [ ("white_balance_auto", dr.doGet p CAP_PROP_AUTO_WB),
          ("white_balance", dr.doGet p CAP_PROP_TEMPERATURE),
          ("auto_exposure", dr.doGet p CAP_PROP_AUTO_EXPOSURE),
          ("exposure", dr.doGet p CAP_PROP_EXPOSURE),
          ("gain", dr.doGet p CAP_PROP_GAIN),
          ("autofocus", dr.doGet p CAP_PROP_AUTOFOCUS),
          ("focus", dr.doGet p CAP_PROP_FOCUS),
          ("zoom", dr.doGet p CAP_PROP_ZOOM),
          ("width", dr.doGet p CAP_PROP_FRAME_WIDTH),
          ("height", dr.doGet p CAP_PROP_FRAME_HEIGHT) ] := by
  unfold get_props
  rw [h]

/-! ## C2 — setter results -/

/-- C2: while the device session is open, every property setter returns
`{ok, requested, applied}` with `requested` the input value and
`applied` the driver readback of the same property id after the write;
a rejected write (`doSet` flag false) still yields this `ok = false`
result, never an error. -/
theorem C2_setter_requested_applied :
    ∀ (dr : Driver) (c : Cam) (p : DevProps) (v : Rat), c.cap = some p →
      set_white_balance_temperature dr v c =
        Except.ok
          ({ ok := (dr.doSet p CAP_PROP_TEMPERATURE v).1, requested := v,
             applied := dr.doGet (dr.doSet p CAP_PROP_TEMPERATURE v).2
               CAP_PROP_TEMPERATURE },
           { c with cap := some (dr.doSet p CAP_PROP_TEMPERATURE v).2 })
      ∧ set_exposure dr v c =
        Except.ok
          ({ ok := (dr.doSet p CAP_PROP_EXPOSURE v).1, requested := v,
             applied := dr.doGet (dr.doSet p CAP_PROP_EXPOSURE v).2
               CAP_PROP_EXPOSURE },
           { c with cap := some (dr.doSet p CAP_PROP_EXPOSURE v).2 })
      ∧ set_gain dr v c =
        Except.ok
          ({ ok := (dr.doSet p CAP_PROP_GAIN v).1, requested := v,
             applied := dr.doGet (dr.doSet p CAP_PROP_GAIN v).2
               CAP_PROP_GAIN },
           { c with cap := some (dr.doSet p CAP_PROP_GAIN v).2 })
      ∧ set_focus dr v c =
        Except.ok
          ({ ok := (dr.doSet p CAP_PROP_FOCUS v).1, requested := v,
             applied := dr.doGet (dr.doSet p CAP_PROP_FOCUS v).2
               CAP_PROP_FOCUS },
           { c with cap := some (dr.doSet p CAP_PROP_FOCUS v).2 })
      ∧ set_zoom dr v c =
        Except.ok
          ({ ok := (dr.doSet p CAP_PROP_ZOOM v).1, requested := v,
             applied := dr.doGet (dr.doSet p CAP_PROP_ZOOM v).2
               CAP_PROP_ZOOM },
           { c with cap := some (dr.doSet p CAP_PROP_ZOOM v).2 }) := by
  intro dr c p v h
  exact ⟨setProp_open dr _ v c p h, setProp_open dr _ v c p h,
         setProp_open dr _ v c p h, setProp_open dr _ v c p h,
         setProp_open dr _ v c p h⟩

/-- Witness for C2 at the well-behaved driver, an open camera with
exposure 3, and request 7: the readback of the stored write is 7. -/
theorem C2_setter_requested_applied_witness :
    cam1.cap = some props1 ∧
      set_exposure drv0 7 cam1 =
        Except.ok
          ({ ok := true, requested := 7, applied := 7 },
           { cam1 with cap := some [(CAP_PROP_EXPOSURE, 7)] }) := by
  refine ⟨rfl, ?_⟩
  have h := (C2_setter_requested_applied drv0 cam1 props1 7 rfl).2.1
  simpa [drv0, props1, CAP_PROP_EXPOSURE] using h

/-! ## C3 — NotOpenError gating -/

/-- C3: every property setter and `get_props` fails with the
`_ensure_open` error exactly while no capture handle is held (and then
performs no device operation: the error is the whole result); once a
`camera_start` has actually opened the device (`cap` held), none of
them fails with it. -/
theorem C3_not_open_gating :
    ∀ (dr : Driver) (c : Cam) (v : Rat),
      (c.cap = none →
        ensure_open c = Except.error CamError.notOpen
        ∧ set_white_balance_temperature dr v c = Except.error CamError.notOpen
        ∧ set_exposure dr v c = Except.error CamError.notOpen
        ∧ set_gain dr v c = Except.error CamError.notOpen
        ∧ set_focus dr v c = Except.error CamError.notOpen
        ∧ set_zoom dr v c = Except.error CamError.notOpen
        ∧ get_props dr c = Except.error CamError.notOpen)
      ∧ (∀ p, c.cap = some p →
        (∃ out, set_white_balance_temperature dr v c = Except.ok out)
        ∧ (∃ out, set_exposure dr v c = Except.ok out)
        ∧ (∃ out, set_gain dr v c = Except.ok out)
        ∧ (∃ out, set_focus dr v c = Except.ok out)
        ∧ (∃ out, set_zoom dr v c = Except.ok out)
        ∧ (∃ gp, get_props dr c = Except.ok gp)) := by
  intro dr c v
  constructor
  · intro h
    refine ⟨?_, ?_, ?_, ?_, ?_, ?_, ?_⟩
    · unfold ensure_open; rw [h]
    · exact setProp_closed dr _ v c h
    · exact setProp_closed dr _ v c h
    · exact setProp_closed dr _ v c h
    · exact setProp_closed dr _ v c h
    · exact setProp_closed dr _ v c h
    · unfold get_props; rw [h]
  · intro p h
    exact ⟨⟨_, setProp_open dr _ v c p h⟩, ⟨_, setProp_open dr _ v c p h⟩,
           ⟨_, setProp_open dr _ v c p h⟩, ⟨_, setProp_open dr _ v c p h⟩,
           ⟨_, setProp_open dr _ v c p h⟩, ⟨_, get_props_open dr c p h⟩⟩

/-- Witness for C3: the closed camera `cam0` errors, the open camera
`cam1` does not. -/
theorem C3_not_open_gating_witness :
    cam0.cap = none
    ∧ set_exposure drv0 5 cam0 = Except.error CamError.notOpen
    ∧ get_props drv0 cam0 = Except.error CamError.notOpen
    ∧ cam1.cap = some props1
    ∧ (∃ out, set_exposure drv0 5 cam1 = Except.ok out) := by
  refine ⟨rfl, ?_, ?_, rfl, ?_⟩
  · exact ((C3_not_open_gating drv0 cam0 5).1 rfl).2.2.1
  · exact ((C3_not_open_gating drv0 cam0 5).1 rfl).2.2.2.2.2.2
  · exact ((C3_not_open_gating drv0 cam1 5).2 props1 rfl).2.1

/-! ## C5 — lifecycle idempotence -/

/-- C5: after any command sequence, the `running` flag matches the last
lifecycle command; `start()` while running changes nothing (in
particular launches no second producer thread), and `stop()` while
stopped changes nothing. -/
theorem C5_lifecycle_idempotence :
    (∀ (cmds : List LifeCmd) (s : LifeState) (last : LifeCmd),
      ((lifeRun (cmds ++ [last]) s).running = true ↔ last = LifeCmd.start))
    ∧ (∀ s : LifeState, s.running = true → lifeStart s = s)
    ∧ (∀ s : LifeState, s.running = false → lifeStop s = s) := by
  refine ⟨?_, ?_, ?_⟩
  · intro cmds s last
    rw [lifeRun, List.foldl_append]
    cases last with
    | start =>
      simp only [List.foldl, lifeApply, lifeStart]
      split <;> simp_all
    | stopCmd =>
      simp [List.foldl, lifeApply, lifeStop]
  · intro s h
    unfold lifeStart
    rw [if_pos h]
  · intro s h
    cases s with
    | mk r t =>
      cases h
      rfl

/-- Witness for C5: `stop` then `start` ends running; `start` on a
running state and `stop` on a stopped state are no-ops. -/
theorem C5_lifecycle_idempotence_witness :
    ((lifeRun ([LifeCmd.stopCmd] ++ [LifeCmd.start])
        { running := false, threads := 0 }).running = true
      ↔ LifeCmd.start = LifeCmd.start)
    ∧ (({ running := true, threads := 1 } : LifeState).running = true
        ∧ lifeStart { running := true, threads := 1 }
            = { running := true, threads := 1 })
    ∧ (({ running := false, threads := 1 } : LifeState).running = false
        ∧ lifeStop { running := false, threads := 1 }
            = { running := false, threads := 1 }) := by
  refine ⟨?_, ⟨rfl, ?_⟩, ⟨rfl, ?_⟩⟩
  · exact C5_lifecycle_idempotence.1 [LifeCmd.stopCmd] _ LifeCmd.start
  · exact C5_lifecycle_idempotence.2.1 _ rfl
  · exact C5_lifecycle_idempotence.2.2 _ rfl

/-! ## C6 — multipart part structure -/

/-- C6: on a non-null frame that encodes successfully (the encoder is
invoked with `IMWRITE_JPEG_QUALITY = 100`), the generator emits exactly
the boundary for `"frame"`, the `image/jpeg` content-type header, a
`Content-Length` header whose value is the payload's exact byte count,
the payload, and the trailing separator, in that order. -/
theorem C6_multipart_part_structure :
    ∀ (enc : Frame → List Nat → Option (List Nat)) (o : Obs)
      (rest : List Obs) (f : Frame) (jpg : List Nat),
      o.running = true → o.frame = some f →
      enc f [IMWRITE_JPEG_QUALITY, 100] = some jpg →
      mjpegGen enc (o :: rest)
        = boundaryChunk :: contentTypeChunk ::
            contentLengthChunk jpg.length :: jpg :: crlfChunk ::
            mjpegGen enc rest
      ∧ boundaryChunk = asciiBytes "--frame\r\n"
      ∧ contentTypeChunk = asciiBytes "Content-Type: image/jpeg\r\n"
      ∧ contentLengthChunk jpg.length
          = asciiBytes ("Content-Length: " ++ toString jpg.length ++ "\r\n\r\n")
      ∧ crlfChunk = asciiBytes "\r\n" := by
  intro enc o rest f jpg hr hf he
  obtain ⟨orun, ofr⟩ := o
  simp only at hr hf
  subst hr hf
  refine ⟨?_, rfl, rfl, rfl, rfl⟩
  simp [mjpegGen, he]

/-- Witness for C6 at the constant encoder and a 2-byte payload. -/
theorem C6_multipart_part_structure_witness :
    (({ running := true, frame := some 0 } : Obs).running = true)
    ∧ (({ running := true, frame := some 0 } : Obs).frame = some 0)
    ∧ enc0 0 [IMWRITE_JPEG_QUALITY, 100] = some [65, 66]
    ∧ mjpegGen enc0 [{ running := true, frame := some 0 }]
        = [boundaryChunk, contentTypeChunk, contentLengthChunk 2,
           [65, 66], crlfChunk] := by
  refine ⟨rfl, rfl, rfl, ?_⟩
  have h := (C6_multipart_part_structure enc0
    { running := true, frame := some 0 } [] 0 [65, 66] rfl rfl rfl).1
  simpa [mjpegGen] using h

/-! ## C7 — stream gated on `running` -/

/-- The generator yields nothing from the first non-running observation
onward. -/
theorem mjpegGen_stops (enc : Frame → List Nat → Option (List Nat))
    (bad : Obs) (h : bad.running = false) :
    ∀ (pre rest : List Obs),
      mjpegGen enc (pre ++ bad :: rest) = mjpegGen enc pre := by
  intro pre
  induction pre with
  | nil =>
    intro rest
    simp [mjpegGen, h]
  | cons o t ih =>
    intro rest
    rw [List.cons_append]
    simp only [mjpegGen]
    by_cases ho : o.running = false
    · simp [ho]
    · cases hf : o.frame with
      | none => simp [ho, hf, ih]
      | some f =>
        cases he : enc f [IMWRITE_JPEG_QUALITY, 100] with
        | none => simp [ho, hf, he, ih]
        | some jpg => simp [ho, hf, he, ih]

/-- C7: a stream request while `running` is false is answered with the
503 "not started" error and no body, and an active generator emits
nothing at or after the first observation of `running = false`. -/
theorem C7_stream_requires_running :
    ∀ (enc : Frame → List Nat → Option (List Nat)) (c : Cam)
      (obs : List Obs),
      (c.running = false → mjpeg_endpoint enc c obs = Except.error httpErr503)
      ∧ (∀ (pre : List Obs) (bad : Obs) (rest : List Obs),
          bad.running = false →
          mjpegGen enc (pre ++ bad :: rest) = mjpegGen enc pre) := by
  intro enc c obs
  constructor
  · intro h
    unfold mjpeg_endpoint
    rw [h]
    rfl
  · intro pre bad rest h
    exact mjpegGen_stops enc bad h pre rest

/-- Witness for C7: the stopped camera `cam0` is refused; a stop
observation ends the stream output. -/
theorem C7_stream_requires_running_witness :
    cam0.running = false
    ∧ mjpeg_endpoint enc0 cam0 [] = Except.error httpErr503
    ∧ (({ running := false, frame := none } : Obs).running = false)
    ∧ mjpegGen enc0
        ([{ running := true, frame := some 0 }] ++
          ({ running := false, frame := none } : Obs) ::
            [{ running := true, frame := some 1 }])
        = mjpegGen enc0 [{ running := true, frame := some 0 }] := by
  refine ⟨rfl, ?_, rfl, ?_⟩
  · exact (C7_stream_requires_running enc0 cam0 []).1 rfl
  · exact (C7_stream_requires_running enc0 cam0 []).2
      [{ running := true, frame := some 0 }]
      { running := false, frame := none }
      [{ running := true, frame := some 1 }] rfl

/-! ## C9 — settings applied by `_open_camera` -/

/-- C9 (amended): every successful open applies the requested width and
height and the default control flags (auto-exposure `1`, auto white
balance `0`, autofocus `0`); the pixel format is applied iff the
configured fourcc string is non-empty — with an empty fourcc no
`CAP_PROP_FOURCC` write happens at all. -/
theorem C9_open_applies_settings_amended :
    ∀ (cfg : Config) (devOpens : Bool) (writes : List (Nat × Rat)),
      open_camera cfg devOpens = Except.ok writes →
      devOpens = true
      ∧ (CAP_PROP_FRAME_WIDTH, (cfg.width : Rat)) ∈ writes
      ∧ (CAP_PROP_FRAME_HEIGHT, (cfg.height : Rat)) ∈ writes
      ∧ (CAP_PROP_AUTO_EXPOSURE, (1 : Rat)) ∈ writes
      ∧ (CAP_PROP_AUTO_WB, (0 : Rat)) ∈ writes
      ∧ (CAP_PROP_AUTOFOCUS, (0 : Rat)) ∈ writes
      ∧ (cfg.fourcc ≠ "" →
          (CAP_PROP_FOURCC, (VideoWriter_fourcc cfg.fourcc : Rat)) ∈ writes)
      ∧ (cfg.fourcc = "" → ∀ x : Rat, (CAP_PROP_FOURCC, x) ∉ writes) := by
  intro cfg devOpens writes h
  cases devOpens with
  | false => simp [open_camera] at h
  | true =>
    refine ⟨rfl, ?_⟩
    have hw : writes =
        (if cfg.fourcc ≠ "" then
          [(CAP_PROP_FOURCC, (VideoWriter_fourcc cfg.fourcc : Rat))]
         else []) ++
        [ (CAP_PROP_FRAME_WIDTH, (cfg.width : Rat)),
          (CAP_PROP_FRAME_HEIGHT, (cfg.height : Rat)),
          (CAP_PROP_AUTO_EXPOSURE, 1),
          (CAP_PROP_AUTO_WB, 0),
          (CAP_PROP_AUTOFOCUS, 0) ] := by
      have h2 := h.symm
      simpa [open_camera] using h2
    subst hw
    by_cases hf : cfg.fourcc = ""
    · simp [hf, CAP_PROP_FRAME_WIDTH, CAP_PROP_FRAME_HEIGHT,
            CAP_PROP_AUTO_EXPOSURE, CAP_PROP_AUTO_WB, CAP_PROP_AUTOFOCUS,
            CAP_PROP_FOURCC]
    · simp [hf, CAP_PROP_FRAME_WIDTH, CAP_PROP_FRAME_HEIGHT,
            CAP_PROP_AUTO_EXPOSURE, CAP_PROP_AUTO_WB, CAP_PROP_AUTOFOCUS,
            CAP_PROP_FOURCC]

/-- Counterexample to C9 as stated: with an empty fourcc the open
succeeds, yet no `CAP_PROP_FOURCC` write is performed — the pixel
format write is guarded by `if self.fourcc:`, not unconditional. -/
theorem C9_counterexample :
    open_camera
        { device_index := 0, width := 1920, height := 1080, fourcc := "" }
        true
      = Except.ok
        [ (CAP_PROP_FRAME_WIDTH, 1920), (CAP_PROP_FRAME_HEIGHT, 1080),
          (CAP_PROP_AUTO_EXPOSURE, 1), (CAP_PROP_AUTO_WB, 0),
          (CAP_PROP_AUTOFOCUS, 0) ]
    ∧ ∀ pr ∈ [ ((CAP_PROP_FRAME_WIDTH : Nat), (1920 : Rat)),
               (CAP_PROP_FRAME_HEIGHT, 1080), (CAP_PROP_AUTO_EXPOSURE, 1),
               (CAP_PROP_AUTO_WB, 0), (CAP_PROP_AUTOFOCUS, 0) ],
        pr.1 ≠ CAP_PROP_FOURCC := by
  constructor
  · simp [open_camera]
  · decide

/-- Witness for the amended C9 at the repository's actual
configuration (`width=1920`, `height=1080`, `fourcc="YUYV"`). -/
theorem C9_open_applies_settings_amended_witness :
    open_camera
        { device_index := 0, width := 1920, height := 1080, fourcc := "YUYV" }
        true
      = Except.ok
        [ (CAP_PROP_FOURCC, (VideoWriter_fourcc "YUYV" : Rat)),
          (CAP_PROP_FRAME_WIDTH, 1920), (CAP_PROP_FRAME_HEIGHT, 1080),
          (CAP_PROP_AUTO_EXPOSURE, 1), (CAP_PROP_AUTO_WB, 0),
          (CAP_PROP_AUTOFOCUS, 0) ]
    ∧ (CAP_PROP_FOURCC, (VideoWriter_fourcc "YUYV" : Rat)) ∈
        [ ((CAP_PROP_FOURCC : Nat), (VideoWriter_fourcc "YUYV" : Rat)),
          (CAP_PROP_FRAME_WIDTH, 1920), (CAP_PROP_FRAME_HEIGHT, 1080),
          (CAP_PROP_AUTO_EXPOSURE, 1), (CAP_PROP_AUTO_WB, 0),
          (CAP_PROP_AUTOFOCUS, 0) ]
    ∧ (CAP_PROP_FRAME_WIDTH, (1920 : Rat)) ∈
        [ ((CAP_PROP_FOURCC : Nat), (VideoWriter_fourcc "YUYV" : Rat)),
          (CAP_PROP_FRAME_WIDTH, 1920), (CAP_PROP_FRAME_HEIGHT, 1080),
          (CAP_PROP_AUTO_EXPOSURE, 1), (CAP_PROP_AUTO_WB, 0),
          (CAP_PROP_AUTOFOCUS, 0) ] := by
  have hok : open_camera
      { device_index := 0, width := 1920, height := 1080, fourcc := "YUYV" }
      true
    = Except.ok
      [ (CAP_PROP_FOURCC, (VideoWriter_fourcc "YUYV" : Rat)),
        (CAP_PROP_FRAME_WIDTH, 1920), (CAP_PROP_FRAME_HEIGHT, 1080),
        (CAP_PROP_AUTO_EXPOSURE, 1), (CAP_PROP_AUTO_WB, 0),
        (CAP_PROP_AUTOFOCUS, 0) ] := by
    simp [open_camera]
  have h := C9_open_applies_settings_amended
    { device_index := 0, width := 1920, height := 1080, fourcc := "YUYV" }
    true _ hok
  refine ⟨hok, ?_, ?_⟩
  · exact h.2.2.2.2.2.2.1 (by simp)
  · exact h.2.1

/-! ## Dispatcher lemmas -/

/-- The `handleSet` always answers with exactly one response. -/
theorem handleSet_reply (name : String)
    (setter : Rat → Cam → Except CamError (PropResult × Cam))
    (v : Option JVal) (c : Cam) :
    ∃ r c2 calls, handleSet name setter v c = StepOut.reply r c2 calls := by
  unfold handleSet
  cases v with
  | none => exact ⟨_, _, _, rfl⟩
  | some jv =>
    try dsimp only
    cases hq : pyFloat jv with
    | none => exact ⟨_, _, _, rfl⟩
    | some pf =>
      try dsimp only
      cases pf with
      | fin q =>
        try dsimp only
        cases hs : setter q c with
        | error e =>
          cases e
          exact ⟨_, _, _, rfl⟩
        | ok rc => exact ⟨_, _, _, rfl⟩
      | inf =>
        try dsimp only
        unfold handleSetNonFinite
        cases he : ensure_open c with
        | error e =>
          cases e
          exact ⟨_, _, _, rfl⟩
        | ok u => exact ⟨_, _, _, rfl⟩
      | neginf =>
        try dsimp only
        unfold handleSetNonFinite
        cases he : ensure_open c with
        | error e =>
          cases e
          exact ⟨_, _, _, rfl⟩
        | ok u => exact ⟨_, _, _, rfl⟩
      | nan =>
        try dsimp only
        unfold handleSetNonFinite
        cases he : ensure_open c with
        | error e =>
          cases e
          exact ⟨_, _, _, rfl⟩
        | ok u => exact ⟨_, _, _, rfl⟩

/-- The `handleSet` when `float(value)` raises. -/
theorem handleSet_noconv (name : String)
    (setter : Rat → Cam → Except CamError (PropResult × Cam))
    (jv : JVal) (c : Cam) (hq : pyFloat jv = none) :
    handleSet name setter (some jv) c
      = StepOut.reply
          (Response.errException (some (JVal.jstr name)) (floatConvDetail jv))
          c [] := by
  unfold handleSet
  try dsimp only
  rw [hq]

/-- The `handleSet` when the value converts: the setter is invoked with the
coerced value, whatever its outcome. -/
theorem handleSet_conv (name : String)
    (setter : Rat → Cam → Except CamError (PropResult × Cam))
    (jv : JVal) (c : Cam) (q : Rat)
    (hq : pyFloat jv = some (PyFloat.fin q)) :
    ∃ r c2, handleSet name setter (some jv) c = StepOut.reply r c2 [(name, q)] := by
  unfold handleSet
  try dsimp only
  rw [hq]
  try dsimp only
  cases hs : setter q c with
  | error e =>
    cases e
    exact ⟨_, _, rfl⟩
  | ok rc => exact ⟨_, _, rfl⟩

/-- The `handleSet` when the value converts but the setter raises the
`_ensure_open` error: the exception response. -/
theorem handleSet_notOpen (name : String)
    (setter : Rat → Cam → Except CamError (PropResult × Cam))
    (jv : JVal) (c : Cam) (q : Rat)
    (hs : setter q c = Except.error CamError.notOpen)
    (hq : pyFloat jv = some (PyFloat.fin q)) :
    handleSet name setter (some jv) c
      = StepOut.reply
          (Response.errException (some (JVal.jstr name))
            "Camera is not started/opened") c [(name, q)] := by
  unfold handleSet
  try dsimp only
  rw [hq]
  try dsimp only
  rw [hs]

/-- The `handleSet` on a non-finite conversion while the camera is
closed: the setter call trips `_ensure_open` and the exception
response is sent. -/
theorem handleSet_nonfinite_closed (name : String)
    (setter : Rat → Cam → Except CamError (PropResult × Cam))
    (jv : JVal) (c : Cam) (pf : PyFloat)
    (hq : pyFloat jv = some pf) (hf : pf.isFin = false)
    (hc : c.cap = none) :
    handleSet name setter (some jv) c
      = StepOut.reply
          (Response.errException (some (JVal.jstr name))
            "Camera is not started/opened") c [] := by
  unfold handleSet
  try dsimp only
  rw [hq]
  cases pf with
  | fin q => simp [PyFloat.isFin] at hf
  | inf =>
    try dsimp only
    simp [handleSetNonFinite, ensure_open, hc]
  | neginf =>
    try dsimp only
    simp [handleSetNonFinite, ensure_open, hc]
  | nan =>
    try dsimp only
    simp [handleSetNonFinite, ensure_open, hc]

/-- The `handleSet` on a non-finite conversion while the camera is
open: the write is acknowledged (its payload lies outside the
exact-rational device model). -/
theorem handleSet_nonfinite_open (name : String)
    (setter : Rat → Cam → Except CamError (PropResult × Cam))
    (jv : JVal) (c : Cam) (pf : PyFloat) (p : DevProps)
    (hq : pyFloat jv = some pf) (hf : pf.isFin = false)
    (hp : c.cap = some p) :
    handleSet name setter (some jv) c
      = StepOut.reply (Response.ackSetSpecial name pf) c [] := by
  unfold handleSet
  try dsimp only
  rw [hq]
  cases pf with
  | fin q => simp [PyFloat.isFin] at hf
  | inf =>
    try dsimp only
    simp [handleSetNonFinite, ensure_open, hp]
  | neginf =>
    try dsimp only
    simp [handleSetNonFinite, ensure_open, hp]
  | nan =>
    try dsimp only
    simp [handleSetNonFinite, ensure_open, hp]

/-- Every message other than a valid-JSON non-object gets exactly one
response. -/
theorem wsHandleText_reply (dr : Driver) (raw : String) (p : Parsed)
    (c : Cam) (h : p ≠ Parsed.nonObject) :
    ∃ r c2 calls, wsHandleText dr raw p c = StepOut.reply r c2 calls := by
  cases p with
  | notJson => exact ⟨_, _, _, rfl⟩
  | nonObject => exact absurd rfl h
  | object mt v =>
    unfold wsHandleText
    try dsimp only
    split_ifs <;>
      first
        | exact ⟨_, _, _, rfl⟩
        | apply handleSet_reply

/-- Over a whole connection, every non-crashing message contributes
exactly one response. -/
theorem runConn_length (dr : Driver) :
    ∀ (msgs : List (String × Parsed)) (c : Cam),
      (∀ m ∈ msgs, m.2 ≠ Parsed.nonObject) →
      (runConn dr msgs c).1.length = msgs.length := by
  intro msgs
  induction msgs with
  | nil =>
    intro c _
    rfl
  | cons m rest ih =>
    intro c h
    have hm : m.2 ≠ Parsed.nonObject := h m (List.mem_cons_self m rest)
    obtain ⟨r, c2, calls, hr⟩ := wsHandleText_reply dr m.1 m.2 c hm
    simp only [runConn]
    rw [hr]
    simp [ih c2 (fun x hx => h x (List.mem_cons_of_mem m hx))]

/-! ## C4 — one response per message (amended) -/

/-- C4 (amended): for every received text that either fails to parse or
parses to a JSON object, the dispatcher sends back exactly one response
of type "ack" or "error": unparseable text yields `invalid_json`
carrying the raw text; a `set_*` message without a value yields
`missing_value` with no device call; an unrecognized type yields
`unknown_type`; an exception inside a recognized handler (here: the
closed-camera `RuntimeError`) yields the `exception` error; and none of
these end the connection.  (The restriction to object messages is
forced: a valid-JSON non-object kills the connection, see the
counterexample.) -/
theorem C4_dispatcher_responses_amended :
    (∀ (dr : Driver) (raw : String) (c : Cam),
      wsHandleText dr raw Parsed.notJson c
        = StepOut.reply (Response.errInvalidJson raw) c [])
    ∧ (∀ (dr : Driver) (raw : String) (c : Cam) (name : String),
        name ∈ setterNames →
        wsHandleText dr raw (Parsed.object (some (JVal.jstr name)) none) c
          = StepOut.reply (Response.errMissingValue name) c [])
    ∧ (∀ (dr : Driver) (raw : String) (c : Cam) (mt v : Option JVal),
        mt ∉ recognizedTypes →
        wsHandleText dr raw (Parsed.object mt v) c
          = StepOut.reply (Response.errUnknownType mt) c [])
    ∧ (∀ (dr : Driver) (raw : String) (c : Cam) (name : String) (q : Rat)
        (jv : JVal),
        name ∈ setterNames → c.cap = none →
        pyFloat jv = some (PyFloat.fin q) →
        wsHandleText dr raw (Parsed.object (some (JVal.jstr name)) (some jv)) c
          = StepOut.reply
              (Response.errException (some (JVal.jstr name))
                "Camera is not started/opened") c [(name, q)])
    ∧ (∀ (dr : Driver) (raw : String) (p : Parsed) (c : Cam) (r : Response)
        (c2 : Cam) (calls : List (String × Rat)),
        wsHandleText dr raw p c = StepOut.reply r c2 calls →
        r.rtype = "ack" ∨ r.rtype = "error")
    ∧ (∀ (dr : Driver) (msgs : List (String × Parsed)) (c : Cam),
        (∀ m ∈ msgs, m.2 ≠ Parsed.nonObject) →
        (runConn dr msgs c).1.length = msgs.length) := by
  refine ⟨?_, ?_, ?_, ?_, ?_, ?_⟩
  · intro dr raw c
    rfl
  · intro dr raw c name hname
    fin_cases hname <;> rfl
  · intro dr raw c mt v h
    simp only [recognizedTypes, setterNames, List.map, List.mem_cons,
      List.not_mem_nil, or_false, not_or] at h
    obtain ⟨h1, h2, h3, h4, h5, h6, h7⟩ := h
    simp [wsHandleText, h1, h2, h3, h4, h5, h6, h7]
  · intro dr raw c name q jv hname hcap hq
    fin_cases hname <;>
      exact handleSet_notOpen _ _ _ _ _ (setProp_closed dr _ q c hcap) hq
  · intro dr raw p c r c2 calls h
    cases r <;> simp [Response.rtype]
  · exact runConn_length

/-- Counterexample to C4 as stated: the text `"[1, 2]"` parses as JSON
but is not an object, so `msg.get("type")` raises outside every
handler — no response is sent and the connection dies. -/
theorem C4_counterexample :
    wsHandleText drv0 "[1, 2]" Parsed.nonObject cam0 = StepOut.crash cam0
    ∧ (∀ (r : Response) (c2 : Cam) (calls : List (String × Rat)),
        wsHandleText drv0 "[1, 2]" Parsed.nonObject cam0
          ≠ StepOut.reply r c2 calls)
    ∧ (runConn drv0 [("[1, 2]", Parsed.nonObject)] cam0).1 = [] := by
  refine ⟨rfl, ?_, rfl⟩
  intro r c2 calls h
  simp [wsHandleText] at h

/-- Witness for the amended C4. -/
theorem C4_dispatcher_responses_amended_witness :
    wsHandleText drv0 "not json" Parsed.notJson cam0
      = StepOut.reply (Response.errInvalidJson "not json") cam0 []
    ∧ ("set_exposure" ∈ setterNames)
    ∧ wsHandleText drv0 ""
        (Parsed.object (some (JVal.jstr "set_exposure")) none) cam0
      = StepOut.reply (Response.errMissingValue "set_exposure") cam0 []
    ∧ ((some (JVal.jstr "bogus") : Option JVal) ∉ recognizedTypes)
    ∧ wsHandleText drv0 ""
        (Parsed.object (some (JVal.jstr "bogus")) none) cam0
      = StepOut.reply (Response.errUnknownType (some (JVal.jstr "bogus")))
          cam0 []
    ∧ (∀ m ∈ [("x", Parsed.notJson)], m.2 ≠ Parsed.nonObject)
    ∧ (runConn drv0 [("x", Parsed.notJson)] cam0).1.length
        = [("x", Parsed.notJson)].length := by
  refine ⟨?_, by decide, ?_, by decide, ?_, ?_, ?_⟩
  · exact C4_dispatcher_responses_amended.1 drv0 "not json" cam0
  · exact C4_dispatcher_responses_amended.2.1 drv0 "" cam0 "set_exposure"
      (by decide)
  · exact C4_dispatcher_responses_amended.2.2.1 drv0 "" cam0
      (some (JVal.jstr "bogus")) none (by decide)
  · decide
  · exact C4_dispatcher_responses_amended.2.2.2.2.2 drv0
      [("x", Parsed.notJson)] cam0 (by decide)

/-! ## C10 — float coercion of the `value` field -/

/-- C10: a present but non-float-convertible `value` lands in the
`exception` error branch (not `missing_value`) with no camera call; a
convertible value is coerced with `float()` and the corresponding
setter is invoked — with the coerced value when it is finite, and for
the non-finite conversions (`inf`, `-inf`, `nan`) still gated by
`_ensure_open`: the exception response while closed, an acknowledged
write while open. -/
theorem C10_set_value_coercion :
    ∀ (dr : Driver) (raw : String) (c : Cam) (name : String) (jv : JVal),
      name ∈ setterNames →
      (pyFloat jv = none →
        wsHandleText dr raw (Parsed.object (some (JVal.jstr name)) (some jv)) c
          = StepOut.reply
              (Response.errException (some (JVal.jstr name))
                (floatConvDetail jv)) c [])
      ∧ (∀ q : Rat, pyFloat jv = some (PyFloat.fin q) →
          ∃ (r : Response) (c2 : Cam),
            wsHandleText dr raw
                (Parsed.object (some (JVal.jstr name)) (some jv)) c
              = StepOut.reply r c2 [(name, q)])
      ∧ (∀ pf : PyFloat, pyFloat jv = some pf → pf.isFin = false →
          (c.cap = none →
            wsHandleText dr raw
                (Parsed.object (some (JVal.jstr name)) (some jv)) c
              = StepOut.reply
                  (Response.errException (some (JVal.jstr name))
                    "Camera is not started/opened") c [])
          ∧ (∀ p : DevProps, c.cap = some p →
            wsHandleText dr raw
                (Parsed.object (some (JVal.jstr name)) (some jv)) c
              = StepOut.reply (Response.ackSetSpecial name pf) c [])) := by
  intro dr raw c name jv hname
  refine ⟨?_, ?_, ?_⟩
  · intro hq
    fin_cases hname <;> exact handleSet_noconv _ _ _ _ hq
  · intro q hq
    fin_cases hname <;> exact handleSet_conv _ _ _ _ _ hq
  · intro pf hq hf
    constructor
    · intro hc
      fin_cases hname <;>
        exact handleSet_nonfinite_closed _ _ _ _ _ hq hf hc
    · intro p hp
      fin_cases hname <;>
        exact handleSet_nonfinite_open _ _ _ _ _ p hq hf hp

/-- Witness for C10: `"abc"` raises in `float()` and yields the
exception error with no camera call; the underscored numeric string
`"1_0"` coerces to `10` and reaches the setter with that value;
`"inf"` converts to a non-finite float, and on the closed camera the
setter call becomes the `_ensure_open` exception response. -/
theorem C10_set_value_coercion_witness :
    ("set_exposure" ∈ setterNames)
    ∧ pyFloat (JVal.jstr "abc") = none
    ∧ wsHandleText drv0 ""
        (Parsed.object (some (JVal.jstr "set_exposure"))
          (some (JVal.jstr "abc"))) cam0
      = StepOut.reply
          (Response.errException (some (JVal.jstr "set_exposure"))
            (floatConvDetail (JVal.jstr "abc"))) cam0 []
    ∧ pyFloat (JVal.jstr "1_0") = some (PyFloat.fin 10)
    ∧ (∃ (r : Response) (c2 : Cam),
        wsHandleText drv0 ""
            (Parsed.object (some (JVal.jstr "set_exposure"))
              (some (JVal.jstr "1_0"))) cam0
          = StepOut.reply r c2 [("set_exposure", 10)])
    ∧ pyFloat (JVal.jstr "inf") = some PyFloat.inf
    ∧ PyFloat.inf.isFin = false
    ∧ cam0.cap = none
    ∧ wsHandleText drv0 ""
        (Parsed.object (some (JVal.jstr "set_exposure"))
          (some (JVal.jstr "inf"))) cam0
      = StepOut.reply
          (Response.errException (some (JVal.jstr "set_exposure"))
            "Camera is not started/opened") cam0 [] := by
  refine ⟨by decide, by decide, ?_, by decide, ?_, by decide, rfl, rfl, ?_⟩
  · exact (C10_set_value_coercion drv0 "" cam0 "set_exposure"
      (JVal.jstr "abc") (by decide)).1 (by decide)
  · exact (C10_set_value_coercion drv0 "" cam0 "set_exposure"
      (JVal.jstr "1_0") (by decide)).2.1 10 (by decide)
  · exact ((C10_set_value_coercion drv0 "" cam0 "set_exposure"
      (JVal.jstr "inf") (by decide)).2.2 PyFloat.inf (by decide) rfl).1 rfl

/-! ## C8 — unconditional start ack, asynchronous open failure -/

/-- C8: a `camera_start` message is always acknowledged with the
`camera_start` ack, whatever the camera state; and from the producer's
opening point, the failed-open transition is a legal step that leaves
`running = false`, `cap = None` and `last_frame = None` with the loop
terminated — nothing propagates to the dispatcher. -/
theorem C8_start_ack_unconditional :
    (∀ (dr : Driver) (raw : String) (v : Option JVal) (c : Cam),
      wsHandleText dr raw (Parsed.object (some (JVal.jstr "camera_start")) v) c
        = StepOut.reply Response.ackStart (camStartSeq c) [])
    ∧ (∀ s : Sys, s.pc = PC.opening →
        Step s (openFailTarget s)
        ∧ (openFailTarget s).running = false
        ∧ (openFailTarget s).cap = none
        ∧ (openFailTarget s).lastFrame = none
        ∧ (openFailTarget s).pc = PC.done) := by
  constructor
  · intro dr raw v c
    rfl
  · intro s h
    exact ⟨Step.openFail s h, rfl, rfl, rfl, rfl⟩

/-- Witness for C8 at a closed camera and the opening producer state. -/
theorem C8_start_ack_unconditional_witness :
    wsHandleText drv0 ""
        (Parsed.object (some (JVal.jstr "camera_start")) none) cam0
      = StepOut.reply Response.ackStart (camStartSeq cam0) []
    ∧ sysOpening.pc = PC.opening
    ∧ Step sysOpening (openFailTarget sysOpening)
    ∧ (openFailTarget sysOpening).running = false
    ∧ (openFailTarget sysOpening).lastFrame = none := by
  refine ⟨C8_start_ack_unconditional.1 drv0 "" none cam0, rfl, ?_, ?_, ?_⟩
  · exact (C8_start_ack_unconditional.2 sysOpening rfl).1
  · exact (C8_start_ack_unconditional.2 sysOpening rfl).2.1
  · exact (C8_start_ack_unconditional.2 sysOpening rfl).2.2.2.1

/-! ## C1 — the shared frame-state invariant -/

/-- What actually holds of the shared slot: whenever the producer task
is inactive (never started, or exited after stop / open failure),
`last_frame` is null. -/
theorem producer_inactive_frame_none :
    ∀ s : Sys, Reachable s →
      (s.pc = PC.notStarted ∨ s.pc = PC.done) → s.lastFrame = none := by
  intro s h
  induction h with
  | refl =>
    intro _
    rfl
  | tail _hab hbc ih =>
    cases hbc with
    | startStep h1 h2 h3 =>
      intro hpc
      rcases hpc with hpc | hpc <;> simp at hpc
    | openOk d h1 =>
      intro hpc
      rcases hpc with hpc | hpc <;> simp at hpc
    | openFail h1 =>
      intro _
      rfl
    | loopTrue h1 h2 =>
      intro hpc
      rcases hpc with hpc | hpc <;> simp at hpc
    | loopFalse h1 h2 =>
      intro hpc
      rcases hpc with hpc | hpc <;> simp at hpc
    | refNone h1 =>
      intro hpc
      rcases hpc with hpc | hpc <;> simp at hpc
    | refSome d h1 =>
      intro hpc
      rcases hpc with hpc | hpc <;> simp at hpc
    | readOk d f h1 =>
      intro hpc
      rcases hpc with hpc | hpc <;> simp at hpc
    | readFail d h1 =>
      intro hpc
      rcases hpc with hpc | hpc <;> simp at hpc
    | publishStep f h1 =>
      intro hpc
      rcases hpc with hpc | hpc <;> simp at hpc
    | cleanupStep h1 =>
      intro _
      rfl
    | stopFlag h1 =>
      intro hpc
      exact ih hpc
    | stopCleanup h1 =>
      intro _
      rfl

/-- Counterexample to C1 as stated: `sysBad` is reachable (start, open,
read a frame, publish it, then `stop()` runs only its first lock-held
block), yet `running` is false while `last_frame` is non-null — the two
fields do not change in one atomic lock-held step. -/
theorem C1_counterexample :
    Reachable sysBad ∧ sysBad.running = false ∧ sysBad.lastFrame ≠ none := by
  refine ⟨?_, rfl, by simp [sysBad]⟩
  have t0 : Reachable initSys := Relation.ReflTransGen.refl
  have t1 : Reachable
      { pc := PC.opening, mainS := MainS.idle, cap := none,
        running := true, lastFrame := none } :=
    t0.tail (Step.startStep initSys rfl rfl (Or.inl rfl))
  have t2 : Reachable
      { pc := PC.loopCheck, mainS := MainS.idle, cap := some [],
        running := true, lastFrame := none } :=
    t1.tail (Step.openOk _ [] rfl)
  have t3 : Reachable
      { pc := PC.checkRef (some []), mainS := MainS.idle, cap := some [],
        running := true, lastFrame := none } :=
    t2.tail (Step.loopTrue _ rfl rfl)
  have t4 : Reachable
      { pc := PC.reading [], mainS := MainS.idle, cap := some [],
        running := true, lastFrame := none } :=
    t3.tail (Step.refSome _ [] rfl)
  have t5 : Reachable
      { pc := PC.publish 0, mainS := MainS.idle, cap := some [],
        running := true, lastFrame := none } :=
    t4.tail (Step.readOk _ [] 0 rfl)
  have t6 : Reachable
      { pc := PC.loopCheck, mainS := MainS.idle, cap := some [],
        running := true, lastFrame := some 0 } :=
    t5.tail (Step.publishStep _ 0 rfl)
  exact t6.tail (Step.stopFlag _ rfl)

/-- C1 (amended): `last_frame` can be non-null while `running` is false
(see the counterexample); what holds is: (i) in every reachable state
in which the producer loop is inactive — not yet started, or exited
after a stop or a failed open — `last_frame` is null; and (ii) `stop()`
transitions in two separate lock-held steps, the first clearing only
`running` (leaving `last_frame` and `cap` untouched) and the second
clearing `cap` and `last_frame` (leaving `running` untouched), so after
both steps and producer exit the state is `(running = false,
last_frame = null)`. -/
theorem C1_frame_invariant_amended :
    (∀ s : Sys, Reachable s →
      (s.pc = PC.notStarted ∨ s.pc = PC.done) → s.lastFrame = none)
    ∧ (∀ s : Sys,
        (stopFlagStep s).running = false
        ∧ (stopFlagStep s).lastFrame = s.lastFrame
        ∧ (stopFlagStep s).cap = s.cap
        ∧ (stopCleanupStep s).lastFrame = none
        ∧ (stopCleanupStep s).cap = none
        ∧ (stopCleanupStep s).running = s.running) :=
  ⟨producer_inactive_frame_none,
   fun _ => ⟨rfl, rfl, rfl, rfl, rfl, rfl⟩⟩

/-- Witness for the amended C1 at the initial state and at the bad
state: the invariant applies where the producer is inactive, and the
stop steps have the stated shapes. -/
theorem C1_frame_invariant_amended_witness :
    (initSys.pc = PC.notStarted ∨ initSys.pc = PC.done)
    ∧ initSys.lastFrame = none
    ∧ (stopFlagStep sysBad).running = false
    ∧ (stopCleanupStep sysBad).lastFrame = none := by
  refine ⟨Or.inl rfl, ?_, (C1_frame_invariant_amended.2 sysBad).1,
          (C1_frame_invariant_amended.2 sysBad).2.2.2.1⟩
  exact C1_frame_invariant_amended.1 initSys Relation.ReflTransGen.refl
    (Or.inl rfl)
